import Mathlib

/-!
Verification model of the relay/tool-dispatch core of `raspberry-pi-project/main.py`.

The Python program is a single-process asyncio relay between web clients and a
Gemini Live session, with a tool-call dispatcher driving GPIO hardware.  This
file gives a shallow embedding of the pure decision logic of that code:

* hardware tool implementations (`set_led_state_impl`, `set_servo_angle_absolute`,
  `rotate_servo_impl`, `get_distance_from_obstacle_impl`,
  `display_text_on_oled_impl`, `play_melody_impl`, `get_predefined_melody`) as
  functions over an explicit state record, with the physical measurement of the
  ultrasonic sensor supplied as an input;
* the tool-call dispatch loop of `receive_from_gemini` (`dispatchOne`,
  `dispatchCalls`), including the Python `AttributeError` raised when an
  invocation arrives without an `args` map (modelled as `Option.none`);
* the per-message behaviour of the `receive_from_gemini` loop
  (`handleGeminiMessage`), of one iteration of `forward_text_to_gemini`
  (`forwardTextStep`), and of the binary-frame branch of
  `rpi_websocket_handler` (`handleClientBinary`);
* the enqueue/sleep epilogue of one iteration of the `gemini_processor`
  reconnect loop (`cycleEpilogue`).

GPIO pin toggling, PWM duty cycles, real sleeps, base64 encoding and OLED pixel
contents are not modelled; every `try`/`except` whose body cannot raise in the
model is translated as the non-raising branch.  Where the Python control flow is
surprising (dead stores before `break`, `put_nowait` appending at the tail,
`continue` running the loop's `finally`), the definitions carry comments citing
the source lines.
-/

/-- A JSON text frame sent to web clients on `gemini_to_web_queue`
(`{"type": "status" | "audio_data" | "clear_audio_buffer", ...}`). -/
inductive WebMsg where
  | status (message : String)
  | audioPayload (payload : String)
  | clearBuffer (message : String)
deriving DecidableEq

/-- One note passed to `play_melody_impl`; Python represents it as a dict whose
`frequency`/`duration` keys may be absent (`note.get(...)` returns `None`). -/
structure Note where
  frequency : Option Int
  duration : Option Int
deriving DecidableEq

/-- An entry of `PREDEFINED_MELODIES`: display name plus note list. -/
structure Melody where
  name : String
  notes : List Note
deriving DecidableEq

/-- The result dict returned by every tool implementation in `main.py`.
Python returns plain dicts with varying key sets; each possible key is an
optional field here (`none` = key absent).  `message` is present in every
return statement of the source, so it is not optional. -/
structure ToolCallResult where
  success : Option Bool
  status : Option String
  message : String
  distance_cm : Option ℚ
  unit : Option String
deriving DecidableEq

/-- `{"success": False, "message": msg}` (the shape used by all failure returns
outside `play_melody_impl`). -/
def failRes (msg : String) : ToolCallResult :=
  ⟨some false, none, msg, none, none⟩

/-- `{"success": True, "message": msg}`. -/
def okRes (msg : String) : ToolCallResult :=
  ⟨some true, none, msg, none, none⟩

/-- The mutable module-level state of `main.py` that the modelled code reads or
writes, plus the function-local `transcription_message` of
`receive_from_gemini`, which Python keeps alive across loop iterations (it is
reset only inside the `serverContent` branch, main.py:712). -/
structure SysState where
  servo_initialized : Bool
  current_servo_angle : Int
  oled_initialized : Bool
  accumulated_transcription_for_oled : String
  user_audio_session_active : Bool
  transcription_message_stale : Option WebMsg
deriving DecidableEq

/-- Physical outcome of one ultrasonic measurement in
`get_distance_from_obstacle_impl`: either one of the two echo timeouts, or a
completed measurement whose duration-derived, rounded distance in cm is `d`. -/
inductive MeasureOutcome where
  | echoTimeoutHigh
  | echoTimeoutLow
  | reading (d : ℚ)
deriving DecidableEq

/-- Ambient facts the modelled handlers consult: whether
`gemini_websocket_connection` is non-`None` with `state == State.OPEN`, and
what the ultrasonic sensor would measure. -/
structure Env where
  gemini_connection_open : Bool
  measure : MeasureOutcome
deriving DecidableEq

/-- ASCII lowercasing of one character, the effect of Python `str.lower()` on
the ASCII inputs this program compares against. -/
def pyCharLower (c : Char) : Char :=
  if 65 ≤ c.toNat ∧ c.toNat ≤ 90 then Char.ofNat (c.toNat + 32) else c

/-- ASCII uppercasing of one character. -/
def pyCharUpper (c : Char) : Char :=
  if 97 ≤ c.toNat ∧ c.toNat ≤ 122 then Char.ofNat (c.toNat - 32) else c

/-- Python `str.lower()` (ASCII range). -/
def pyLower (s : String) : String := ⟨s.data.map pyCharLower⟩

/-- Python `str.capitalize()`: first character uppercased, the rest
lowercased. -/
def pyCapitalize (s : String) : String :=
  match s.data with
  | [] => ""
  | c :: rest => ⟨pyCharUpper c :: rest.map pyCharLower⟩

/-- Python `str.strip()` restricted to the common whitespace characters. -/
def pyStrip (s : String) : String :=
  ⟨((s.data.dropWhile Char.isWhitespace).reverse.dropWhile Char.isWhitespace).reverse⟩

/-- Python `str.replace(old, new)` for a single-character pattern (the only
shape `main.py` uses: `" "→"_"` and `"-"→"_"`). -/
def pyReplaceChar (s : String) (old new : Char) : String :=
  ⟨s.data.map (fun c => if c = old then new else c)⟩

/-- The keys of the module-level `led_pins` dict. -/
def led_pin_colors : List String := ["green", "yellow", "red", "white"]

/-- `set_led_state_impl` (main.py:144-163): lowercases the colour, rejects
unknown colours, otherwise drives the pin and reports success.  The GPIO call
itself cannot fail in the model, so the `except` branch is not reachable. -/
def set_led_state_impl (color : String) (state : Bool) : ToolCallResult :=
  let c := pyLower color
  if c ∈ led_pin_colors then
    if state then okRes (pyCapitalize c ++ " LED turned on.")
    else okRes (pyCapitalize c ++ " LED turned off.")
  else failRes ("Unknown LED color: " ++ c)

/-- `set_servo_angle_absolute` (main.py:171-191): clamps the target into
[0, 180] (`int(max(0, min(180, target_angle)))`), fails if the servo was never
initialized, otherwise moves and records the new `current_servo_angle`. -/
def set_servo_angle_absolute (st : SysState) (target_angle : Int) : ToolCallResult × SysState :=
  let t := max 0 (min 180 target_angle)
  if st.servo_initialized then
    (okRes ("Servo motor set to " ++ toString t ++ " degrees."),
     { st with current_servo_angle := t })
  else
    (failRes "Servo motor not initialized.", st)

/-- `rotate_servo_impl` (main.py:193-209).  Note that Python's `if direction:`
is false both for `None` and for the empty string, so an empty `direction`
falls through to the absolute-angle branch. -/
def rotate_servo_impl (st : SysState) (degrees : Int) (direction : Option String) :
    ToolCallResult × SysState :=
  match direction with
  | some dir =>
    if dir = "" then
      set_servo_angle_absolute st degrees
    else
      let d := pyLower dir
      if d = "clockwise" then
        set_servo_angle_absolute st (st.current_servo_angle - degrees)
      else if d = "counter_clockwise" then
        set_servo_angle_absolute st (st.current_servo_angle + degrees)
      else if d = "anticlockwise" then
        set_servo_angle_absolute st (st.current_servo_angle + degrees)
      else
        (failRes ("Unknown direction: " ++ d ++
          ". Use \x27clockwise\x27 or \x27counter_clockwise\x27."), st)
  | none => set_servo_angle_absolute st degrees

/-- `get_distance_from_obstacle_impl` (main.py:211-236), with the physical
measurement supplied as `m`.  A completed reading is reported with
`success: True` and a `status` of `"in_range"` unless the distance falls
outside (2, 400) cm, in which case `status` is `"out_of_range"`. -/
def get_distance_from_obstacle_impl (m : MeasureOutcome) : ToolCallResult :=
  match m with
  | .echoTimeoutHigh => ⟨some false, none, "Echo timeout HIGH", some (-1), none⟩
  | .echoTimeoutLow => ⟨some false, none, "Echo timeout LOW", some (-1), none⟩
  | .reading d =>
    let status := if d > 400 ∨ d < 2 then "out_of_range" else "in_range"
    ⟨some true, some status, "Obstacle at " ++ toString d ++ " cm.", some d, some "cm"⟩

/-- `display_text_on_oled_impl` (main.py:238-291): result shape only.  The four
`None` checks on the display globals collapse into `oled_initialized`; the pixel
drawing and line wrapping do not affect the returned dict. -/
def display_text_on_oled_impl (st : SysState) (text : String) : ToolCallResult :=
  if st.oled_initialized then
    if pyStrip text = "" then okRes "OLED cleared."
    else okRes "Text updated on OLED."
  else failRes "OLED not initialized."

/-- The validation applied to one note by the loop of `play_melody_impl`
(main.py:974-990): notes missing a field or with non-positive frequency or
duration are skipped; otherwise the duration is raised to at least 10 ms and
the frequency to at least 20 Hz.  Returns the `(frequency, duration)` pair the
buzzer actually plays, or `none` for a skipped note. -/
def effectiveNote (n : Note) : Option (Int × Int) :=
  match n.frequency, n.duration with
  | some f, some d =>
    if f ≤ 0 ∨ d ≤ 0 then none
    else some ((if f < 20 then 20 else f), (if d < 10 then 10 else d))
  | _, _ => none

/-- The sequence of `(frequency, duration)` pairs `play_melody_impl` actually
sounds for a given note list. -/
def playedNotes (notes : List Note) : List (Int × Int) :=
  notes.filterMap effectiveNote

/-- `play_melody_impl` (main.py:962-999): the returned dict.  Unlike every
other tool implementation it reports `{"status": "success", "message": ...}` —
there is no `"success"` boolean key.  In the model PWM calls cannot raise, so
the `{"status": "error", ...}` branch is unreachable. -/
def play_melody_impl (notes : List Note) : ToolCallResult :=
  let _played := playedNotes notes
  ⟨none, some "success", "Melody played.", none, none⟩

/-- Helper for the melody notes of `PREDEFINED_MELODIES`. -/
def mkNote (f d : Int) : Note := ⟨some f, some d⟩

/-- `PREDEFINED_MELODIES` (main.py:378-492), keys in insertion order. -/
def PREDEFINED_MELODIES : List (String × Melody) := [
  ("twinkle_star", ⟨"Twinkle Twinkle Little Star",
    [mkNote 523 400, mkNote 523 400, mkNote 784 400, mkNote 784 400,
     mkNote 880 400, mkNote 880 400, mkNote 784 800, mkNote 698 400,
     mkNote 698 400, mkNote 659 400, mkNote 659 400, mkNote 587 400,
     mkNote 587 400, mkNote 523 800]⟩),
  ("happy_birthday", ⟨"Happy Birthday",
    [mkNote 523 300, mkNote 523 300, mkNote 587 600, mkNote 523 600,
     mkNote 698 600, mkNote 659 1200, mkNote 523 300, mkNote 523 300,
     mkNote 587 600, mkNote 523 600, mkNote 784 600, mkNote 698 1200]⟩),
  ("mary_lamb", ⟨"Mary Had a Little Lamb",
    [mkNote 659 400, mkNote 587 400, mkNote 523 400, mkNote 587 400,
     mkNote 659 400, mkNote 659 400, mkNote 659 800, mkNote 587 400,
     mkNote 587 400, mkNote 587 800, mkNote 659 400, mkNote 784 400,
     mkNote 784 800]⟩),
  ("ode_to_joy", ⟨"Ode to Joy (Beethoven)",
    [mkNote 659 400, mkNote 659 400, mkNote 698 400, mkNote 784 400,
     mkNote 784 400, mkNote 698 400, mkNote 659 400, mkNote 587 400,
     mkNote 523 400, mkNote 523 400, mkNote 587 400, mkNote 659 400,
     mkNote 659 600, mkNote 587 200, mkNote 587 800]⟩),
  ("fur_elise", ⟨"Für Elise (Beethoven)",
    [mkNote 659 300, mkNote 622 300, mkNote 659 300, mkNote 622 300,
     mkNote 659 300, mkNote 494 300, mkNote 587 300, mkNote 523 300,
     mkNote 440 600, mkNote 262 300, mkNote 330 300, mkNote 440 300,
     mkNote 494 600]⟩),
  ("canon", ⟨"Canon in D (Pachelbel)",
    [mkNote 587 800, mkNote 440 800, mkNote 494 800, mkNote 370 800,
     mkNote 392 800, mkNote 587 800, mkNote 392 800, mkNote 440 800,
     mkNote 587 400, mkNote 523 400, mkNote 587 400, mkNote 440 400,
     mkNote 494 400, mkNote 370 400, mkNote 392 400, mkNote 440 400]⟩)]

/-- `get_predefined_melody` (main.py:494-497): lowercase the name, replace
spaces and hyphens with underscores, then look the key up. -/
def get_predefined_melody (melody_name : String) : Option Melody :=
  PREDEFINED_MELODIES.lookup (pyReplaceChar (pyReplaceChar (pyLower melody_name) ' ' '_') '-' '_')

/-- `list_available_melodies` (main.py:499-501), reduced to the key list in
insertion order (only the keys appear in the error message that uses it). -/
def available_melody_keys : List String := PREDEFINED_MELODIES.map Prod.fst

/-- Python `repr` of a list of strings, as interpolated into the
`"Unknown melody ..."` message by `f"... {list(available.keys())}"`. -/
def pyStrListRepr (xs : List String) : String :=
  "[" ++ String.intercalate ", " (xs.map (fun s => "\x27" ++ s ++ "\x27")) ++ "]"

/-- Python `str` of an optional string, as interpolated by
`f"Unknown function: {fc_name}"` when the `name` key was absent. -/
def pyOptStr : Option String → String
  | some s => s
  | none => "None"

example : get_predefined_melody "Twinkle Star" = get_predefined_melody "twinkle-star" := by rfl
example : (set_led_state_impl "RED" true).message = "Red LED turned on." := by rfl
example : pyStrListRepr ["a", "b"] = "[\x27a\x27, \x27b\x27]" := by rfl

/-- The typed `args` map of one function call, as declared by the tool schemas
(main.py:504-604).  Each known key is optional: `fc_args.get(key)` yields
`None` when the key is absent. -/
structure ArgsMap where
  color : Option String
  state : Option Bool
  degrees : Option Int
  direction : Option String
  text : Option String
  notes : Option (List Note)
  melody_name : Option String
deriving DecidableEq

/-- An `ArgsMap` with every key absent. -/
def emptyArgs : ArgsMap := ⟨none, none, none, none, none, none, none⟩

/-- One entry of `toolCall.functionCalls` (main.py:759-762): `fc.get("name")`,
`fc.get("args")` and `fc.get("id")` may each be absent.  An absent `args`
(`fc_args = None`) makes the handlers that call `fc_args.get(...)` raise
`AttributeError`. -/
structure FunctionCall where
  name : Option String
  args : Option ArgsMap
  id : Option String
deriving DecidableEq

/-- One entry of `toolResponse.functionResponses` (main.py:811-815):
`{"id": fc_id, "name": fc_name, "response": {"output": tool_call_result}}`. -/
structure FunctionResponse where
  id : String
  name : Option String
  output : ToolCallResult
deriving DecidableEq

/-- A message sent on the upstream Gemini socket by the modelled code paths. -/
inductive UpMsg where
  | clientText (text : String)
  | realtimeAudioChunk (chunk : List Nat)
  | audioStreamEnd
  | toolResponse (responses : List FunctionResponse)
deriving DecidableEq

/-- Dispatch of a single function call: the `elif` chain at main.py:764-808.
`none` models the `AttributeError` raised by `fc_args.get(...)` when the
invocation carries no `args` map; every other outcome is the produced result
dict together with the (possibly updated) global state. -/
def dispatchOne (env : Env) (st : SysState) (fc : FunctionCall) :
    Option (ToolCallResult × SysState) :=
  if fc.name = some "set_led_state" then
    match fc.args with
    | none => none
    | some args =>
      match args.color, args.state with
      | some color, some state => some (set_led_state_impl color state, st)
      | some _, none => some (failRes "Missing color or state argument for set_led_state.", st)
      | none, _ => some (failRes "Missing color or state argument for set_led_state.", st)
  else if fc.name = some "rotate_servo" then
    match fc.args with
    | none => none
    | some args =>
      match args.degrees with
      | some degrees => some (rotate_servo_impl st degrees args.direction)
      | none => some (failRes "Missing degrees argument for rotate_servo.", st)
  else if fc.name = some "get_distance_from_obstacle" then
    -- this handler never touches fc_args (main.py:781-783)
    some (get_distance_from_obstacle_impl env.measure, st)
  else if fc.name = some "display_on_oled" then
    match fc.args with
    | none => none
    | some args =>
      match args.text with
      | some text => some (display_text_on_oled_impl st text, st)
      | none => some (failRes "Missing text for OLED.", st)
  else if fc.name = some "play_melody" then
    match fc.args with
    | none => none
    | some args => some (play_melody_impl (args.notes.getD []), st)
  else if fc.name = some "play_predefined_melody" then
    match fc.args with
    | none => none
    | some args =>
      match args.melody_name with
      | some melody_name =>
        -- Python `if melody_name:` is false for the empty string as well
        if melody_name = "" then
          some (failRes "Missing melody_name for predefined melody.", st)
        else
          match get_predefined_melody melody_name with
          | some melody => some (play_melody_impl melody.notes, st)
          | none =>
            some (failRes ("Unknown melody \x27" ++ melody_name ++ "\x27. Available: " ++
              pyStrListRepr available_melody_keys), st)
      | none => some (failRes "Missing melody_name for predefined melody.", st)
  else
    some (failRes ("Unknown function: " ++ pyOptStr fc.name), st)

/-- The append guard `if tool_call_result and fc_id:` (main.py:810-815).  Every
branch of the dispatch assigns a non-empty dict to `tool_call_result`, so only
the truthiness of `fc_id` decides: a response entry is appended exactly when the
invocation carried a non-`None`, non-empty id. -/
def respOfFc (fc : FunctionCall) (res : ToolCallResult) : List FunctionResponse :=
  match fc.id with
  | some s => if s = "" then [] else [⟨s, fc.name, res⟩]
  | none => []

/-- The `for fc in tool_call_data["functionCalls"]` loop (main.py:759-815).
Returns `(completed, function_responses, final state)`: `completed = false`
means an `AttributeError` escaped the loop (caught only at main.py:850), in
which case the collected responses are never sent. -/
def dispatchCalls (env : Env) (st : SysState) :
    List FunctionCall → Bool × List FunctionResponse × SysState
  | [] => (true, [], st)
  | fc :: rest =>
    match dispatchOne env st fc with
    | none => (false, [], st)
    | some (res, st₁) =>
      let out := dispatchCalls env st₁ rest
      (out.1, respOfFc fc res ++ out.2.1, out.2.2)

/-- The ids of the invocations that carried a non-empty id, in input order. -/
def nonEmptyIds (fcs : List FunctionCall) : List String :=
  fcs.filterMap (fun fc =>
    match fc.id with
    | some s => if s = "" then none else some s
    | none => none)

/-- One entry of `serverContent.modelTurn.parts`. -/
inductive TurnPart where
  | inlineAudioData (data : String)
  | textPart (text : String)
  | otherPart
deriving DecidableEq

/-- The fields of a `serverContent` message that `receive_from_gemini` reads
(main.py:700-750).  An absent `modelTurn`/empty `parts` are equivalent (both
falsy); an absent or empty `outputTranscription.text` are equivalent too
(handled below). -/
structure ServerContent where
  modelTurnParts : List TurnPart
  outputTranscription : Option String
  interrupted : Bool
  turnComplete : Bool
deriving DecidableEq

/-- A decoded upstream frame, classified the way the `if`/`elif` chain of
`receive_from_gemini` does (main.py:700-835), plus `badJson` for a frame that
fails `json.loads` (main.py:848). -/
inductive GeminiMessage where
  | serverContent (sc : ServerContent)
  | toolCall (fcs : List FunctionCall)
  | goAway
  | other
  | badJson
deriving DecidableEq

/-- Whether the receive loop keeps running after a message. -/
inductive LoopAction where
  | continueLoop
  | breakLoop
deriving DecidableEq

/-- Observable effect of processing one upstream message in
`receive_from_gemini`: the JSON frames put on `gemini_to_web_queue` in order,
the message sent back on the Gemini socket (tool responses only), whether the
loop breaks, and the new state. -/
structure HandleOut where
  enqueued : List WebMsg
  sentUpstream : Option UpMsg
  action : LoopAction
  state : SysState
deriving DecidableEq

/-- The audio loop at main.py:704-709: each audio part overwrites
`message_for_web`, so the last audio part wins. -/
def lastAudioPart (parts : List TurnPart) : Option String :=
  parts.foldl (fun acc p =>
    match p with
    | .inlineAudioData d => some d
    | _ => acc) none

/-- The text loop at main.py:730-734: `text_response_part += part["text"] + " "`. -/
def textResponseOf (parts : List TurnPart) : String :=
  parts.foldl (fun acc p =>
    match p with
    | .textPart t => acc ++ t ++ " "
    | _ => acc) ""

/-- The `serverContent` branch of `receive_from_gemini` (main.py:700-750)
followed by the tail enqueues at main.py:838-843. -/
def handleServerContent (st : SysState) (sc : ServerContent) : HandleOut :=
  -- main.py:704-709 — audio parts
  let m0 : Option WebMsg := (lastAudioPart sc.modelTurnParts).map WebMsg.audioPayload
  -- main.py:712-727 — transcription; an absent or empty text is falsy
  let tr : Option String :=
    match sc.outputTranscription with
    | some t => if t = "" then none else some t
    | none => none
  let acc1 : String :=
    match tr with
    | some t =>
      (if sc.turnComplete ∨ st.accumulated_transcription_for_oled.length > 200 then ""
       else st.accumulated_transcription_for_oled) ++ t
    | none => st.accumulated_transcription_for_oled
  let mt : Option WebMsg × Option WebMsg :=
    match tr with
    | some t =>
      match m0 with
      | none => (some (.status ("[T]: " ++ t)), none)
      | some a => (some a, some (.status ("[T]: " ++ t)))
    | none => (m0, none)
  -- main.py:730-739 — text parts; when `message_for_web` is taken the text is
  -- enqueued directly (main.py:739), ahead of the tail enqueues
  let txt := pyStrip (textResponseOf sc.modelTurnParts)
  let mte : Option WebMsg × List WebMsg :=
    if txt = "" then (mt.1, [])
    else
      match mt.1 with
      | none => (some (.status txt), [])
      | some a => (some a, [.status txt])
  -- main.py:741-745 — interruption: `clear_audio_buffer` is enqueued directly
  let mi : Option WebMsg × List WebMsg :=
    if sc.interrupted then
      (match mte.1 with
       | none => some (WebMsg.status "[Gemini: Interrupted]")
       | some a => some a,
       [WebMsg.clearBuffer "[Gemini: Interrupted]"])
    else (mte.1, [])
  -- main.py:747-750 — turn completion clears `user_audio_session_active`
  let ua := if sc.turnComplete then false else st.user_audio_session_active
  -- main.py:838-843 — tail enqueues: `message_for_web`, then
  -- `transcription_message` (which this branch reset at main.py:712)
  { enqueued := mte.2 ++ mi.2 ++ mi.1.toList ++ mt.2.toList,
    sentUpstream := none,
    action := .continueLoop,
    state := { st with
      accumulated_transcription_for_oled := acc1,
      user_audio_session_active := ua,
      transcription_message_stale := mt.2 } }

/-- One iteration of the `receive_from_gemini` loop (main.py:689-851) on a
decoded message.

* `toolCall`: dispatch, then send the batch only if responses were collected
  and the socket is open (main.py:818-828).  A dispatch `AttributeError` jumps
  to `except Exception` (main.py:850), skipping the send and the tail
  enqueues, and the loop continues.  When dispatch completes, the tail code
  re-enqueues the *stale* `transcription_message` left over from an earlier
  `serverContent` iteration (main.py:842 reads a variable this branch never
  reset); on the very first messages the same line raises `NameError`, caught
  at main.py:850 — observationally the `none` case.
* `goAway`: `message_for_web` is assigned at main.py:832 but the `break` at
  main.py:833 leaves the loop before the tail enqueue at main.py:838, so
  nothing is enqueued.
* `other` (unhandled structure, main.py:834-835): only the tail runs, which
  re-enqueues the stale `transcription_message` as above.
* `badJson`: `json.loads` raises before any branch (caught at main.py:848). -/
def handleGeminiMessage (env : Env) (st : SysState) (msg : GeminiMessage) : HandleOut :=
  match msg with
  | .serverContent sc => handleServerContent st sc
  | .toolCall fcs =>
    let out := dispatchCalls env st fcs
    if out.1 then
      { enqueued := st.transcription_message_stale.toList,
        sentUpstream :=
          if out.2.1 = [] then none
          else if env.gemini_connection_open then some (.toolResponse out.2.1) else none,
        action := .continueLoop,
        state := out.2.2 }
    else
      { enqueued := [], sentUpstream := none, action := .continueLoop, state := out.2.2 }
  | .goAway =>
    -- main.py:832 assigns `message_for_web = {"type": "status", "message":
    -- "[Gemini session ending]"}`, but the `break` at main.py:833 exits the
    -- loop before the enqueue at main.py:838 can run: the assignment is dead
    let _message_for_web := WebMsg.status "[Gemini session ending]"
    { enqueued := [], sentUpstream := none, action := .breakLoop, state := st }
  | .other =>
    { enqueued := st.transcription_message_stale.toList, sentUpstream := none,
      action := .continueLoop, state := st }
  | .badJson =>
    { enqueued := [], sentUpstream := none, action := .continueLoop, state := st }

/-- Whether the send inside `forward_text_to_gemini` raises
`websockets.exceptions.ConnectionClosed` (the connection died during the
send). -/
inductive SendAttempt where
  | delivered
  | raisesClosed
deriving DecidableEq

/-- Observable effect of one iteration of `forward_text_to_gemini`. -/
structure ForwardOut where
  sentUpstream : Option UpMsg
  queueAfter : List String
  action : LoopAction
deriving DecidableEq

/-- One iteration of `forward_text_to_gemini` (main.py:660-686), given the
queue contents of `web_text_to_gemini_queue` (head = front).  `none` means the
queue was empty and `queue.get()` suspends without completing an iteration.
On either failure path — connection found closed before the send
(main.py:674-677) or `ConnectionClosed` raised during it (main.py:678-681) —
the message is re-enqueued with `put_nowait`, which appends at the *tail* of
an `asyncio.Queue`, and the loop breaks. -/
def forwardTextStep (geminiOpen : Bool) (send : SendAttempt) (queue : List String) :
    Option ForwardOut :=
  match queue with
  | [] => none
  | message_from_web :: rest =>
    if geminiOpen then
      match send with
      | .delivered =>
        some { sentUpstream := some (.clientText message_from_web),
               queueAfter := rest, action := .continueLoop }
      | .raisesClosed =>
        some { sentUpstream := none,
               queueAfter := rest ++ [message_from_web], action := .breakLoop }
    else
      some { sentUpstream := none,
             queueAfter := rest ++ [message_from_web], action := .breakLoop }

/-- Observable effect of the binary-frame branch of `rpi_websocket_handler`. -/
structure ClientBinaryOut where
  sentUpstream : Option UpMsg
  webTextQueueAfter : List String
  enqueuedToWeb : List WebMsg
  repliesToClient : List WebMsg
  state : SysState
deriving DecidableEq

/-- The `isinstance(message_from_web, bytes)` branch of `rpi_websocket_handler`
(main.py:891-916) on one received audio chunk.  The first chunk of a new audio
session marks the user as speaking and resets the transcription accumulator
(main.py:895-899).  If the Gemini socket is not open the chunk is only logged:
it is sent nowhere, put on no queue, and nothing is written back to the client
(main.py:915-916). -/
def handleClientBinary (geminiOpen : Bool) (st : SysState) (webTextQueue : List String)
    (chunk : List Nat) : ClientBinaryOut :=
  let st1 :=
    if st.user_audio_session_active then st
    else { st with
      user_audio_session_active := true,
      accumulated_transcription_for_oled := "" }
  if geminiOpen then
    { sentUpstream := some (.realtimeAudioChunk chunk),
      webTextQueueAfter := webTextQueue, enqueuedToWeb := [], repliesToClient := [],
      state := st1 }
  else
    { sentUpstream := none,
      webTextQueueAfter := webTextQueue, enqueuedToWeb := [], repliesToClient := [],
      state := st1 }

/-- How one pass of the `while True` loop of `gemini_processor`
(main.py:615-866) ended. -/
inductive AttemptOutcome where
  | handshakeFailed (response_data : String)
  | connectionError
  | sessionEnded
deriving DecidableEq

/-- An observable step of the epilogue of one reconnect-loop pass: a put on
`gemini_to_web_queue` or an `asyncio.sleep` of the given number of seconds. -/
inductive CycleEvent where
  | enqueue (m : WebMsg)
  | sleep (seconds : Nat)
deriving DecidableEq

/-- The enqueue/sleep sequence that runs between the end of one connection
attempt and the `websockets.connect` of the next (main.py:643-866).

* `handshakeFailed` (the first reply lacks `"setupComplete"`, main.py:647-653):
  the branch enqueues the setup-failure status and sleeps 5 s, then its
  `continue` runs the `try`'s `finally` (main.py:862-866), which enqueues the
  disconnect status and sleeps another 5 s — two 5-second delays in total.
* `connectionError` (exception from `websockets.connect`, the handshake I/O or
  the gathered sub-flows, main.py:858-861): only the `finally` runs — one
  5-second delay.
* `sessionEnded` (`asyncio.gather` returned because both sub-flows broke):
  likewise only the `finally` runs. -/
def cycleEpilogue : AttemptOutcome → List CycleEvent
  | .handshakeFailed response_data =>
    [.enqueue (.status ("Error: Gemini setup failed: " ++ response_data)),
     .sleep 5,
     .enqueue (.status "[Error: Disconnected from Gemini. Attempting to reconnect...]"),
     .sleep 5]
  | .connectionError =>
    [.enqueue (.status "[Error: Disconnected from Gemini. Attempting to reconnect...]"),
     .sleep 5]
  | .sessionEnded =>
    [.enqueue (.status "[Error: Disconnected from Gemini. Attempting to reconnect...]"),
     .sleep 5]

/-- The sleeps performed by an epilogue, in order. -/
def sleepsOf (evs : List CycleEvent) : List Nat :=
  evs.filterMap (fun e =>
    match e with
    | .sleep n => some n
    | .enqueue _ => none)

/-- The tool names whose dispatch handler dereferences `fc_args`
(`fc_args.get(...)`) — exactly the handlers that raise `AttributeError` when
the invocation carries no `args` map. -/
def derefsArgsMap (nm : Option String) : Prop :=
  nm = some "set_led_state" ∨ nm = some "rotate_servo" ∨ nm = some "display_on_oled" ∨
  nm = some "play_melody" ∨ nm = some "play_predefined_melody"

instance (nm : Option String) : Decidable (derefsArgsMap nm) := by
  unfold derefsArgsMap; infer_instance

/-- A default environment for concrete evaluations: Gemini socket open, sensor
reading 100 cm. -/
def env0 : Env := ⟨true, .reading 100⟩

/-- A default state for concrete evaluations: the state right after
`setup_gpio`/`setup_oled` succeed (servo at 90°, OLED up, nothing
accumulated). -/
def st0 : SysState := ⟨true, 90, true, "", false, none⟩

/-- Claim C2: the spec requires that on an upstream `goAway` every connected
client receives exactly one `{"type":"status","message":"[Gemini session
ending]"}` message before the reconnect wait.  In the code, the `goAway`
branch of `receive_from_gemini` assigns that message to `message_for_web` and
then immediately `break`s (main.py:832-833), so control never reaches the
enqueue at main.py:838: nothing at all is put on `gemini_to_web_queue`, and no
client can ever receive the session-ending status. -/
theorem goAway_status_never_enqueued (env : Env) (st : SysState) :
    (handleGeminiMessage env st .goAway).action = .breakLoop ∧
    (handleGeminiMessage env st .goAway).enqueued = [] ∧
    WebMsg.status "[Gemini session ending]" ∉ (handleGeminiMessage env st .goAway).enqueued :=
  ⟨rfl, rfl, by simp [handleGeminiMessage]⟩

/-- Claim C3, counterexample: the claim says a handshake failure is followed by
a single 5-second delay, the same as a generic connection error.  The
handshake-failure pass in fact sleeps twice (main.py:652 and, via `continue`
running the loop's `finally`, main.py:866): its sleep sequence is `[5, 5]`,
not `[5]`, for a total of 10 seconds. -/
theorem handshake_backoff_counterexample :
    sleepsOf (cycleEpilogue (.handshakeFailed "resp")) ≠ [5] ∧
    (sleepsOf (cycleEpilogue (.handshakeFailed "resp"))).sum = 10 := by
  exact ⟨by decide, rfl⟩

/-- Claim C3, amended: a handshake failure triggers the 5-second backoff of its
own branch (main.py:652) and then, because `continue` runs the `try`'s
`finally` (main.py:862-866), the generic 5-second backoff as well — two
5-second delays (10 s total) before the next connection attempt, whereas a
generic connection error sleeps exactly once. -/
theorem handshake_backoff_two_delays (response_data : String) :
    sleepsOf (cycleEpilogue (.handshakeFailed response_data)) = [5, 5] ∧
    sleepsOf (cycleEpilogue .connectionError) = [5] :=
  ⟨rfl, rfl⟩

/-- Claim C4, counterexample: the claim says a TextTurn whose send failed is
pushed back to the *front* of the outbound queue so that it is the first
envelope delivered next session.  With queue `["t1", "t2"]` and the send of
`"t1"` raising `ConnectionClosed`, `put_nowait` re-enqueues `"t1"` at the
tail: the queue becomes `["t2", "t1"]` and the next message delivered is
`"t2"`, not the failed `"t1"`. -/
theorem text_requeue_counterexample :
    forwardTextStep true .raisesClosed ["t1", "t2"] =
      some ⟨none, ["t2", "t1"], .breakLoop⟩ ∧
    (["t2", "t1"] : List String).head? ≠ some "t1" := by
  exact ⟨rfl, by decide⟩

/-- Claim C4, amended: on either failure path of `forward_text_to_gemini` —
the connection already closed before the send (main.py:674-677) or
`ConnectionClosed` raised during the send (main.py:678-681) — the TextTurn is
re-enqueued with `put_nowait`, which appends at the *tail* of the
`asyncio.Queue`: it will be redelivered on the next session, but after every
envelope already queued, and the relay sub-flow breaks. -/
theorem failed_text_requeued_at_tail (m : String) (rest : List String) (send : SendAttempt) :
    forwardTextStep true .raisesClosed (m :: rest) =
      some ⟨none, rest ++ [m], .breakLoop⟩ ∧
    forwardTextStep false send (m :: rest) =
      some ⟨none, rest ++ [m], .breakLoop⟩ :=
  ⟨rfl, rfl⟩

/-- Claim C8: a binary audio frame arriving while the upstream session is down
is dropped on the floor: nothing is sent upstream, the text queue is untouched
(audio is never queued at all), nothing is put on the broadcast queue, and no
reply of any kind goes back to the sending client (main.py:915-916 only log a
warning). -/
theorem audio_chunk_dropped_without_session (st : SysState) (q : List String)
    (chunk : List Nat) :
    (handleClientBinary false st q chunk).sentUpstream = none ∧
    (handleClientBinary false st q chunk).webTextQueueAfter = q ∧
    (handleClientBinary false st q chunk).enqueuedToWeb = [] ∧
    (handleClientBinary false st q chunk).repliesToClient = [] :=
  ⟨rfl, rfl, rfl, rfl⟩

/-- Claim C9: a completed ultrasonic measurement whose duration-derived
distance is above 400 cm or below 2 cm is reported with `status
"out_of_range"` and still `success: True` (main.py:233-235). -/
theorem out_of_range_distance_is_success (d : ℚ) (h : d > 400 ∨ d < 2) :
    (get_distance_from_obstacle_impl (.reading d)).status = some "out_of_range" ∧
    (get_distance_from_obstacle_impl (.reading d)).success = some true := by
  simp only [get_distance_from_obstacle_impl]
  rw [if_pos h]
  trivial

/-- Witness for C9 at the concrete reading 500 cm. -/
theorem out_of_range_distance_is_success_witness :
    ((500 : ℚ) > 400 ∨ (500 : ℚ) < 2) ∧
    ((get_distance_from_obstacle_impl (.reading 500)).status = some "out_of_range" ∧
     (get_distance_from_obstacle_impl (.reading 500)).success = some true) :=
  ⟨Or.inl (by norm_num), out_of_range_distance_is_success 500 (Or.inl (by norm_num))⟩

/-- Unfolding `rotate_servo_impl` on the literal direction `"clockwise"`:
clockwise *subtracts* the degrees from the tracked angle (main.py:200-201). -/
theorem rotate_clockwise_eq (st : SysState) (degrees : Int) :
    rotate_servo_impl st degrees (some "clockwise") =
      set_servo_angle_absolute st (st.current_servo_angle - degrees) := rfl

/-- Unfolding `rotate_servo_impl` on the literal direction
`"counter_clockwise"`: counter-clockwise adds the degrees (main.py:202-203). -/
theorem rotate_counterclockwise_eq (st : SysState) (degrees : Int) :
    rotate_servo_impl st degrees (some "counter_clockwise") =
      set_servo_angle_absolute st (st.current_servo_angle + degrees) := rfl

/-- When the target is already inside [0, 180] the clamp is the identity and a
successful absolute move just records the target angle. -/
theorem set_abs_in_range (st : SysState) (t : Int) (hi : st.servo_initialized = true)
    (h0 : 0 ≤ t) (h180 : t ≤ 180) :
    set_servo_angle_absolute st t =
      (okRes ("Servo motor set to " ++ toString t ++ " degrees."),
       { st with current_servo_angle := t }) := by
  unfold set_servo_angle_absolute
  rw [min_eq_right h180, max_eq_right h0, hi]
  simp

/-- Claim C7: with the servo initialized and neither intermediate target
leaving [0, 180] (so no clamping), `rotate(d, clockwise)` followed by
`rotate(d, counter_clockwise)` returns the tracked `current_servo_angle` to
its original value: the first call moves to `angle - d`, the second back to
`(angle - d) + d = angle`. -/
theorem rotate_roundtrip (st : SysState) (d : Int)
    (hi : st.servo_initialized = true)
    (h1 : 0 ≤ st.current_servo_angle - d) (h2 : st.current_servo_angle - d ≤ 180)
    (h3 : 0 ≤ st.current_servo_angle) (h4 : st.current_servo_angle ≤ 180) :
    ((rotate_servo_impl (rotate_servo_impl st d (some "clockwise")).2 d
        (some "counter_clockwise")).2).current_servo_angle = st.current_servo_angle := by
  rw [rotate_clockwise_eq, set_abs_in_range st _ hi h1 h2, rotate_counterclockwise_eq]
  dsimp only
  rw [set_abs_in_range _ _
    (show ({ st with current_servo_angle := st.current_servo_angle - d } :
      SysState).servo_initialized = true from hi) (by omega) (by omega)]
  dsimp only
  omega

/-- Witness for C7: from the boot state (angle 90), rotating 30° clockwise and
then 30° counter-clockwise lands back on 90. -/
theorem rotate_roundtrip_witness :
    (st0.servo_initialized = true ∧ 0 ≤ st0.current_servo_angle - 30 ∧
     st0.current_servo_angle - 30 ≤ 180 ∧ 0 ≤ st0.current_servo_angle ∧
     st0.current_servo_angle ≤ 180) ∧
    ((rotate_servo_impl (rotate_servo_impl st0 30 (some "clockwise")).2 30
        (some "counter_clockwise")).2).current_servo_angle = st0.current_servo_angle :=
  ⟨⟨rfl, by decide, by decide, by decide, by decide⟩,
   rotate_roundtrip st0 30 rfl (by decide) (by decide) (by decide) (by decide)⟩

/-- Claim C10, counterexample: the empty string is a direction other than
`"clockwise"`, `"counter_clockwise"` and `"anticlockwise"`, yet
`rotate_servo_impl` does not reject it: Python's `if direction:` is falsy on
`""` (main.py:198), so the call falls into the absolute-angle branch, moves
the servo to 0° from the boot angle 90°, and reports success. -/
theorem empty_direction_counterexample :
    (pyLower "" ≠ "clockwise" ∧ pyLower "" ≠ "counter_clockwise" ∧
     pyLower "" ≠ "anticlockwise") ∧
    (rotate_servo_impl st0 0 (some "")).1.success = some true ∧
    (rotate_servo_impl st0 0 (some "")).2.current_servo_angle = 0 ∧
    st0.current_servo_angle = 90 := by
  refine ⟨⟨by decide, by decide, by decide⟩, rfl, rfl, rfl⟩

/-- Claim C10, amended: for every *non-empty* direction string whose lowercase
form is none of `"clockwise"`, `"counter_clockwise"`, `"anticlockwise"`,
`rotate_servo_impl` returns the failure result naming the (lowercased)
unknown direction and leaves the state — in particular the tracked angle —
unchanged, attempting no movement.  (The empty string instead falls through to
the absolute-angle branch, see the counterexample.) -/
theorem unknown_direction_rejected (st : SysState) (degrees : Int) (dir : String)
    (hne : dir ≠ "")
    (h1 : pyLower dir ≠ "clockwise") (h2 : pyLower dir ≠ "counter_clockwise")
    (h3 : pyLower dir ≠ "anticlockwise") :
    rotate_servo_impl st degrees (some dir) =
      (failRes ("Unknown direction: " ++ pyLower dir ++
        ". Use \x27clockwise\x27 or \x27counter_clockwise\x27."), st) := by
  simp only [rotate_servo_impl]
  rw [if_neg hne, if_neg h1, if_neg h2, if_neg h3]

/-- Witness for the amended C10 at the concrete direction `"up"`. -/
theorem unknown_direction_rejected_witness :
    ("up" ≠ "" ∧ pyLower "up" ≠ "clockwise" ∧ pyLower "up" ≠ "counter_clockwise" ∧
     pyLower "up" ≠ "anticlockwise") ∧
    rotate_servo_impl st0 7 (some "up") =
      (failRes ("Unknown direction: " ++ pyLower "up" ++
        ". Use \x27clockwise\x27 or \x27counter_clockwise\x27."), st0) :=
  ⟨⟨by decide, by decide, by decide, by decide⟩,
   unknown_direction_rejected st0 7 "up" (by decide) (by decide) (by decide) (by decide)⟩

/-- Every dispatch branch produces a result when the invocation carries an
`args` map: the only way `dispatchOne` can fail is the `AttributeError` on a
missing map. -/
theorem dispatchOne_isSome (env : Env) (st : SysState) (fc : FunctionCall)
    (h : fc.args.isSome) : (dispatchOne env st fc).isSome := by
  obtain ⟨args, hargs⟩ := Option.isSome_iff_exists.mp h
  unfold dispatchOne
  rw [hargs]
  repeat' split
  all_goals simp_all

/-- When every invocation of a batch carries an `args` map, the dispatch loop
runs to completion and collects exactly one response per invocation with a
truthy id, in input order: the response ids are precisely `nonEmptyIds`. -/
theorem dispatchCalls_complete (env : Env) (fcs : List FunctionCall) :
    (∀ fc ∈ fcs, fc.args.isSome) → ∀ st : SysState,
    (dispatchCalls env st fcs).1 = true ∧
    (dispatchCalls env st fcs).2.1.map FunctionResponse.id = nonEmptyIds fcs := by
  induction fcs with
  | nil => exact fun _ st => ⟨rfl, rfl⟩
  | cons fc rest ih =>
    intro hargs st
    have hfc : fc.args.isSome := hargs fc (List.mem_cons_self fc rest)
    have hrest : ∀ x ∈ rest, x.args.isSome := fun x hx => hargs x (List.mem_cons_of_mem fc hx)
    obtain ⟨pr, hpr⟩ := Option.isSome_iff_exists.mp (dispatchOne_isSome env st fc hfc)
    obtain ⟨res, st₁⟩ := pr
    obtain ⟨ih1, ih2⟩ := ih hrest st₁
    unfold dispatchCalls
    rw [hpr]
    refine ⟨ih1, ?_⟩
    rw [List.map_append, ih2]
    unfold nonEmptyIds respOfFc
    rw [List.filterMap_cons]
    cases hid : fc.id with
    | none => simp [nonEmptyIds]
    | some s =>
      by_cases hs : s = "" <;> simp [hs, nonEmptyIds]

/-- Claim C1: for a `toolCall` message whose invocations each carry an `args`
map, dispatch completes, produces exactly one ToolResult per invocation that
carried a non-empty id (the response id list equals `nonEmptyIds fcs`, so
the id sets coincide), and — with the socket open — the single
`toolResponse` batch sent upstream is exactly that response list (sent only
when it is non-empty, main.py:818-828). -/
theorem toolcall_batch_ids (env : Env) (st : SysState) (fcs : List FunctionCall)
    (hargs : ∀ fc ∈ fcs, fc.args.isSome) (hopen : env.gemini_connection_open = true) :
    (dispatchCalls env st fcs).1 = true ∧
    (dispatchCalls env st fcs).2.1.map FunctionResponse.id = nonEmptyIds fcs ∧
    (handleGeminiMessage env st (.toolCall fcs)).sentUpstream =
      (if (dispatchCalls env st fcs).2.1 = [] then none
       else some (.toolResponse (dispatchCalls env st fcs).2.1)) := by
  obtain ⟨h1, h2⟩ := dispatchCalls_complete env fcs hargs st
  refine ⟨h1, h2, ?_⟩
  simp only [handleGeminiMessage, h1, if_true]
  by_cases he : (dispatchCalls env st fcs).2.1 = [] <;> simp [he, hopen]

/-- A concrete batch for C1: a valid LED call with id `"call-1"`, an unknown
tool whose id is empty (so it gets a result that is never appended), and a
distance call with id `"call-2"`. -/
def fcs1 : List FunctionCall :=
  [⟨some "set_led_state", some { emptyArgs with color := some "red", state := some true },
    some "call-1"⟩,
   ⟨some "unknown_tool", some emptyArgs, some ""⟩,
   ⟨some "get_distance_from_obstacle", some emptyArgs, some "call-2"⟩]

/-- Witness for C1 on `fcs1`: the response ids are exactly `["call-1",
"call-2"]`. -/
theorem toolcall_batch_ids_witness :
    ((∀ fc ∈ fcs1, fc.args.isSome) ∧ env0.gemini_connection_open = true) ∧
    ((dispatchCalls env0 st0 fcs1).1 = true ∧
     (dispatchCalls env0 st0 fcs1).2.1.map FunctionResponse.id = nonEmptyIds fcs1 ∧
     (handleGeminiMessage env0 st0 (.toolCall fcs1)).sentUpstream =
       (if (dispatchCalls env0 st0 fcs1).2.1 = [] then none
        else some (.toolResponse (dispatchCalls env0 st0 fcs1).2.1))) :=
  ⟨⟨by decide, rfl⟩, toolcall_batch_ids env0 st0 fcs1 (by decide) rfl⟩

example : nonEmptyIds fcs1 = ["call-1", "call-2"] := by decide

/-- An invocation without an `args` map sent to a handler that dereferences
`fc_args` makes `dispatchOne` raise (model: `none`). -/
theorem dispatchOne_none_of_missing_args (env : Env) (st : SysState) (fc : FunctionCall)
    (ha : fc.args = none) (hn : derefsArgsMap fc.name) :
    dispatchOne env st fc = none := by
  unfold dispatchOne
  rcases hn with h | h | h | h | h <;> rw [h] <;> simp +decide [ha]

/-- If any invocation of the batch has no `args` map and names an
args-dereferencing handler, the dispatch loop aborts with the exception. -/
theorem dispatchCalls_aborts (env : Env) (fcs : List FunctionCall) :
    (∃ fc ∈ fcs, fc.args = none ∧ derefsArgsMap fc.name) → ∀ st : SysState,
    (dispatchCalls env st fcs).1 = false := by
  induction fcs with
  | nil => rintro ⟨fc, hmem, -⟩; cases hmem
  | cons fc rest ih =>
    rintro ⟨bad, hmem, hargs, hname⟩ st
    rcases List.mem_cons.mp hmem with rfl | hmem
    · unfold dispatchCalls
      rw [dispatchOne_none_of_missing_args env st bad hargs hname]
    · unfold dispatchCalls
      cases hd : dispatchOne env st fc with
      | none => rfl
      | some pr =>
        obtain ⟨res, st₁⟩ := pr
        exact ih ⟨bad, hmem, hargs, hname⟩ st₁

/-- Claim C5, amended: an invocation whose `args` map is absent raises
`AttributeError` inside the dispatch loop, which is caught only by the
message-level `except Exception` (main.py:850): the whole `ToolCallRequest`
is abandoned — dispatch does not complete and no response batch is sent —
but the receive loop continues, so the session is not torn down. -/
theorem missing_args_abort_batch (env : Env) (st : SysState) (fcs : List FunctionCall)
    (h : ∃ fc ∈ fcs, fc.args = none ∧ derefsArgsMap fc.name) :
    (dispatchCalls env st fcs).1 = false ∧
    (handleGeminiMessage env st (.toolCall fcs)).sentUpstream = none ∧
    (handleGeminiMessage env st (.toolCall fcs)).action = .continueLoop := by
  have h1 := dispatchCalls_aborts env fcs h st
  refine ⟨h1, ?_, ?_⟩ <;> simp [handleGeminiMessage, h1]

/-- A batch for C5: the first invocation is a `set_led_state` call with no
`args` map at all; the second is a perfectly valid distance call with id
`"call-b"`. -/
def fcsBad : List FunctionCall :=
  [⟨some "set_led_state", none, some "call-a"⟩,
   ⟨some "get_distance_from_obstacle", some emptyArgs, some "call-b"⟩]

/-- Claim C5, counterexample: the claim says only the offending invocation is
skipped and the rest are still dispatched and answered.  On `fcsBad` the
remaining valid invocation `"call-b"` is *not* answered: the dispatch aborts
with no responses and nothing is sent upstream. -/
theorem missing_args_counterexample :
    (dispatchCalls env0 st0 fcsBad).2.1.map FunctionResponse.id = [] ∧
    ¬ ("call-b" ∈ (dispatchCalls env0 st0 fcsBad).2.1.map FunctionResponse.id) ∧
    (handleGeminiMessage env0 st0 (.toolCall fcsBad)).sentUpstream = none := by
  refine ⟨rfl, by decide, rfl⟩

/-- Witness for the amended C5 on the same concrete batch. -/
theorem missing_args_abort_batch_witness :
    (∃ fc ∈ fcsBad, fc.args = none ∧ derefsArgsMap fc.name) ∧
    ((dispatchCalls env0 st0 fcsBad).1 = false ∧
     (handleGeminiMessage env0 st0 (.toolCall fcsBad)).sentUpstream = none ∧
     (handleGeminiMessage env0 st0 (.toolCall fcsBad)).action = .continueLoop) :=
  ⟨by decide, missing_args_abort_batch env0 st0 fcsBad (by decide)⟩

/-- A string append with a non-empty left part is non-empty. -/
theorem str_append_ne_empty_left (a b : String) (ha : a ≠ "") : a ++ b ≠ "" := by
  intro h
  apply ha
  apply String.ext
  have hdata := congrArg String.data h
  rw [String.data_append] at hdata
  exact (List.append_eq_nil.mp hdata).1

/-- A string append with a non-empty right part is non-empty. -/
theorem str_append_ne_empty_right (a b : String) (hb : b ≠ "") : a ++ b ≠ "" := by
  intro h
  apply hb
  apply String.ext
  have hdata := congrArg String.data h
  rw [String.data_append] at hdata
  exact (List.append_eq_nil.mp hdata).2

/-- The outcome shape claimed by the spec for every ToolResult: a `success`
boolean is present, together with a non-empty human-readable message. -/
def hasSuccessFlag (r : ToolCallResult) : Prop :=
  r.success.isSome = true ∧ r.message ≠ ""

/-- `set_led_state_impl` always carries a success flag and a message. -/
theorem set_led_state_impl_flag (color : String) (state : Bool) :
    hasSuccessFlag (set_led_state_impl color state) := by
  simp only [hasSuccessFlag, set_led_state_impl]
  split
  · split
    · exact ⟨rfl, str_append_ne_empty_right _ _ (by decide)⟩
    · exact ⟨rfl, str_append_ne_empty_right _ _ (by decide)⟩
  · exact ⟨rfl, str_append_ne_empty_left _ _ (by decide)⟩

/-- `set_servo_angle_absolute` always carries a success flag and a message. -/
theorem set_servo_angle_absolute_flag (st : SysState) (t : Int) :
    hasSuccessFlag (set_servo_angle_absolute st t).1 := by
  simp only [hasSuccessFlag, set_servo_angle_absolute]
  split
  · exact ⟨rfl, str_append_ne_empty_right _ _ (by decide)⟩
  · exact ⟨rfl, by dsimp only [failRes]; decide⟩

/-- `rotate_servo_impl` always carries a success flag and a message. -/
theorem rotate_servo_impl_flag (st : SysState) (deg : Int) (dir : Option String) :
    hasSuccessFlag (rotate_servo_impl st deg dir).1 := by
  rcases dir with _ | d
  · exact set_servo_angle_absolute_flag st deg
  · simp only [rotate_servo_impl]
    repeat' split
    all_goals first
      | exact set_servo_angle_absolute_flag _ _
      | exact ⟨rfl, by dsimp only [failRes]; exact str_append_ne_empty_right _ _ (by decide)⟩

/-- `get_distance_from_obstacle_impl` always carries a success flag and a
message. -/
theorem get_distance_flag (m : MeasureOutcome) :
    hasSuccessFlag (get_distance_from_obstacle_impl m) := by
  cases m with
  | echoTimeoutHigh => exact ⟨rfl, by decide⟩
  | echoTimeoutLow => exact ⟨rfl, by decide⟩
  | reading d => exact ⟨rfl, str_append_ne_empty_right _ _ (by decide)⟩

/-- `display_text_on_oled_impl` always carries a success flag and a message. -/
theorem display_flag (st : SysState) (text : String) :
    hasSuccessFlag (display_text_on_oled_impl st text) := by
  simp only [hasSuccessFlag, display_text_on_oled_impl]
  split
  · split
    · exact ⟨rfl, by decide⟩
    · exact ⟨rfl, by decide⟩
  · exact ⟨rfl, by decide⟩

/-- Every dispatch result outside the two melody tools carries a success flag
and a non-empty message. -/
theorem dispatchOne_flag (env : Env) (st : SysState) (fc : FunctionCall)
    (h1 : fc.name ≠ some "play_melody") (h2 : fc.name ≠ some "play_predefined_melody") :
    ∀ pr ∈ dispatchOne env st fc, hasSuccessFlag pr.1 := by
  unfold dispatchOne
  repeat' split
  all_goals intro pr hpr
  all_goals simp only [Option.mem_def, Option.some.injEq] at hpr
  all_goals try exact absurd hpr (by simp)
  all_goals subst hpr
  all_goals first
    | exact set_led_state_impl_flag _ _
    | exact rotate_servo_impl_flag _ _ _
    | exact get_distance_flag _
    | exact display_flag _ _
    | exact ⟨rfl, by dsimp only [failRes]; decide⟩
    | exact ⟨rfl, by dsimp only [failRes]; exact str_append_ne_empty_left _ _ (by decide)⟩

/-- A `play_melody` invocation with one valid note and id `"call-m"`. -/
def fcMelody : FunctionCall :=
  ⟨some "play_melody", some { emptyArgs with notes := some [mkNote 440 200] }, some "call-m"⟩

/-- Claim C6, counterexample: the ToolResult produced for a `play_melody`
invocation has no `success` boolean at all — `play_melody_impl` returns
`{"status": "success", "message": "Melody played."}` (main.py:996), unlike
every other tool implementation. -/
theorem melody_result_counterexample :
    ((dispatchCalls env0 st0 [fcMelody]).2.1.map (fun r => r.output.success)) = [none] ∧
    ((dispatchCalls env0 st0 [fcMelody]).2.1.map (fun r => r.output.status)) =
      [some "success"] := by
  exact ⟨rfl, rfl⟩

/-- Claim C6, amended: every ToolResult produced by dispatch for a tool other
than `play_melody` and `play_predefined_melody` has an outcome with a
`success` boolean and a non-empty human-readable message; the melody results
instead carry a `status` string (`"success"`/`"error"`) with a message and no
`success` boolean. -/
theorem non_melody_results_have_success (env : Env) (st : SysState) (fc : FunctionCall)
    (res : ToolCallResult) (st₁ : SysState)
    (h1 : fc.name ≠ some "play_melody") (h2 : fc.name ≠ some "play_predefined_melody")
    (hd : dispatchOne env st fc = some (res, st₁)) :
    res.success.isSome = true ∧ res.message ≠ "" :=
  dispatchOne_flag env st fc h1 h2 (res, st₁) (Option.mem_def.mpr hd)

/-- A valid `set_led_state` invocation used as the C6 witness input. -/
def fcLed : FunctionCall :=
  ⟨some "set_led_state", some { emptyArgs with color := some "red", state := some true },
   some "call-1"⟩

/-- Witness for the amended C6 on the concrete LED call. -/
theorem non_melody_results_have_success_witness :
    (fcLed.name ≠ some "play_melody" ∧ fcLed.name ≠ some "play_predefined_melody" ∧
     dispatchOne env0 st0 fcLed = some (okRes "Red LED turned on.", st0)) ∧
    ((okRes "Red LED turned on.").success.isSome = true ∧
     (okRes "Red LED turned on.").message ≠ "") :=
  ⟨⟨by decide, by decide, by decide⟩,
   non_melody_results_have_success env0 st0 fcLed (okRes "Red LED turned on.") st0
     (by decide) (by decide) (by decide)⟩
